import Mathlib

/-!
# Headscale client: request building and response classification

A shallow embedding of `client/user.go` and `client/preauthkey.go`.

* Go strings and byte slices are lists of bytes (`GoString`).
* A Go `error` is an `Option Err`; `none` is `nil`.
* A function with several results returns a tuple in the order of the Go results.
* A function that reads from a `*http.Response` also returns the response as it
  is left after the call (explicit state passing for the body stream).
* The HTTP primitive of the client (`get`, `post`, `delete`) and the standard
  library functions whose result depends on tables or parsers
  (`json.Unmarshal`, the non-ASCII branch of `strings.ToLower`, `time.Format`)
  are parameters of the model.
-/

namespace Headscale

/-! ## Strings -/

/-- A Go `string` (or `[]byte`): a finite sequence of bytes. -/
abbrev GoString := List Nat

/-- The bytes of a string literal of the source: its UTF-8 encoding. -/
def utf8 (s : String) : GoString :=
  (s.data.flatMap String.utf8EncodeChar).map UInt8.toNat

/-- Go `strings.HasPrefix` with the arguments in Go order: `s` starts with `p`. -/
def strings.HasPrefix : GoString → GoString → Bool
  | _, [] => true
  | [], _ :: _ => false
  | c :: s, d :: p => c == d && strings.HasPrefix s p

/-- Go `strings.Contains s substr`: `substr` occurs in `s` as a contiguous run of bytes
(the empty string occurs in every string). -/
def strings.Contains : GoString → GoString → Bool
  | [], substr => strings.HasPrefix [] substr
  | c :: s, substr => strings.HasPrefix (c :: s) substr || strings.Contains s substr

/-- The ASCII case mapping of `strings.ToLower`: bytes `'A'..'Z'` are moved to `'a'..'z'`. -/
def asciiLower (c : Nat) : Nat :=
  if 65 ≤ c ∧ c ≤ 90 then c + 32 else c

/-- Go `strings.ToLower`. On a string of ASCII bytes only (all below `utf8.RuneSelf = 0x80`) the
upper-case letters are mapped bytewise; any other string goes through
`strings.Map(unicode.ToLower, s)`, which is the parameter `mapUnicodeLower`. -/
def strings.ToLower (mapUnicodeLower : GoString → GoString) (s : GoString) : GoString :=
  if s.all (fun c => decide (c < 128)) then s.map asciiLower else mapUnicodeLower s

/-! ## Errors and time -/

/-- Modelled from the spec: the sentinel errors `ErrUnauthorized` and `ErrUserNotFound` are
declared elsewhere in the client package (not in `user.go` or `preauthkey.go`); the spec
describes them as typed sentinel errors compared by identity. `ErrBodyReadAfterClose` is the
error of `net/http` for a read on a closed body, and `other n` stands for any further error
value (transport failures, read failures, decoding failures). -/
inductive Err
  | ErrUnauthorized
  | ErrUserNotFound
  | ErrBodyReadAfterClose
  | other (tag : Nat)
  deriving DecidableEq, Repr

/-- Go `time.Time`, as seconds and nanoseconds since the zero instant. The location is left out:
`IsZero` does not look at it. -/
structure Time where
  sec : Int
  nsec : Nat
  deriving DecidableEq, Repr

/-- The zero value `time.Time{}`. -/
def Time.zero : Time := ⟨0, 0⟩

/-- Go `Time.IsZero`. -/
def Time.IsZero (t : Time) : Bool := t.sec == 0 && t.nsec == 0

/-! ## Data model -/

/-- The `UserStatus` enum of `user.go`. -/
inductive UserStatus
  | UserCreated
  | UserExists
  | UserDeleted
  | UserUnknown
  | UserError
  deriving DecidableEq, Repr

/-- The `PreAuthKeyStatus` enum of `preauthkey.go`. -/
inductive PreAuthKeyStatus
  | PreAuthKeyCreated
  | PreAuthKeyExists
  | PreAuthKeyDeleted
  | PreAuthKeyUnknown
  | PreAuthKeyError
  deriving DecidableEq, Repr

/-- The `UserConfig` struct. -/
structure UserConfig where
  ID : Nat
  Name : GoString
  CreatedAt : Time
  deriving DecidableEq, Repr

/-- The zero value `UserConfig{}`. -/
def UserConfig.zero : UserConfig := ⟨0, [], Time.zero⟩

/-- The `UserCreationResponse` struct. -/
structure UserCreationResponse where
  User : UserConfig
  deriving DecidableEq, Repr

/-- The `PreAuthKeyConfig` struct. A nil and an empty `Tags` slice are both the empty list. -/
structure PreAuthKeyConfig where
  User : GoString
  Reusable : Bool
  Ephemeral : Bool
  Expiration : Time
  Tags : List GoString
  deriving DecidableEq, Repr

/-- The anonymous struct in the field `PreAuthKey` of `PreAuthKeyResponse`. -/
structure PreAuthKeyPayload where
  User : GoString
  ID : GoString
  Key : GoString
  Reusable : Bool
  Ephemeral : Bool
  Used : Bool
  Expiration : Time
  CreatedAt : Time
  ACLTags : List GoString
  deriving DecidableEq, Repr

/-- The `PreAuthKeyResponse` struct. -/
structure PreAuthKeyResponse where
  PreAuthKey : PreAuthKeyPayload
  deriving DecidableEq, Repr

/-- The zero value `PreAuthKeyResponse{}`. -/
def PreAuthKeyResponse.zero : PreAuthKeyResponse :=
  ⟨⟨[], [], [], false, false, false, Time.zero, Time.zero, []⟩⟩

/-- A value stored in the `map[string]any` request body. -/
inductive Value
  | string (s : GoString)
  | bool (b : Bool)
  | time (t : Time)
  | strings (l : List GoString)
  deriving DecidableEq, Repr

/-- A Go `map[string]any`: a finite partial function from keys to values. -/
def GoMap := GoString → Option Value

/-- The empty map, `make(map[string]any)`. -/
def GoMap.make : GoMap := fun _ => none

/-- The assignment `m[k] = v`: binds `k`, replacing an earlier binding of `k`. -/
def GoMap.set (m : GoMap) (k : GoString) (v : Value) : GoMap :=
  fun k' => if k' = k then some v else m k'

/-! ## Standard library and transport -/

/-- The standard-library functions the model takes as parameters. Each `unmarshal*` field is
`json.Unmarshal(body, &x)` for a zero-valued `x` of the given type: it returns `x` as it is
after the call and the error. `mapUnicodeLower` is `strings.Map(unicode.ToLower, s)` and
`timeFormat t layout` is `t.Format(layout)`. -/
structure Stdlib where
  unmarshalUser : GoString → UserCreationResponse × Option Err
  unmarshalUsers : GoString → List UserConfig × Option Err
  unmarshalPreAuthKey : GoString → PreAuthKeyResponse × Option Err
  mapUnicodeLower : GoString → GoString
  timeFormat : Time → GoString → GoString

/-- The body of an HTTP response, an `io.ReadCloser`: `data` are the bytes the stream still
delivers, `fault` the error with which the stream ends (`none` for a clean end), `closed` tells
whether `Close` has been called. -/
structure ReadCloser where
  data : GoString
  fault : Option Err
  closed : Bool
  deriving DecidableEq, Repr

/-- Go `io.ReadAll` on a response body: the bytes read and the error, and the stream after the
call. A closed body yields `ErrBodyReadAfterClose`. -/
def ReadAll (r : ReadCloser) : (GoString × Option Err) × ReadCloser :=
  if r.closed then (([], some Err.ErrBodyReadAfterClose), r)
  else ((r.data, r.fault), { r with data := [] })

/-- The part of `http.Response` the client looks at. -/
structure Response where
  StatusCode : Int
  Body : ReadCloser
  deriving DecidableEq, Repr

/-- A response with status code `c` whose body can be read and delivers the bytes `b`. -/
def Response.readable (c : Int) (b : GoString) : Response := ⟨c, ⟨b, none, false⟩⟩

/-- The Go pair `(resp, err)` returned by the HTTP primitive. With a non-nil error the response
may be nil; with a nil error the response is not nil (the contract of `net/http`). -/
inductive Transport
  | failed (resp : Option Response) (err : Err)
  | answered (resp : Response)

/-- Modelled from the spec: the `Client` type and its HTTP primitive (`get`, `post`, `delete`)
are declared elsewhere in the client package; the spec describes the primitive as an external
collaborator. A client is given by the outcome of each primitive as a function of
the request (path, and request body for `post`). -/
structure Client where
  get : GoString → Transport
  post : GoString → GoMap → Transport
  delete : GoString → Transport

/-- Modelled from the spec: `closeResponseBody` is declared elsewhere in the client package;
by the spec it drains and releases the body of the response. It is called with
the nil response when the transport failed, and then does nothing. -/
def closeResponseBody : Option Response → Option Response
  | none => none
  | some resp => some { resp with Body := { resp.Body with data := [], closed := true } }

/-! ## `preauthkey.go` -/

open UserStatus PreAuthKeyStatus

/-- Go `timestampToProtobufTimestamp`. -/
def timestampToProtobufTimestamp (lib : Stdlib) (t : Time) : GoString :=
  lib.timeFormat t (utf8 "1992-05-07T:%M:%S.%fZ")

/-- The loop `for i, tag := range Tags { formatedTags[i] = "tag:" + strings.ToLower(tag) }` of
`buildPreAuthKeyRequestBody`: `tags` are the tags still to visit, `i` the index of the first of
them, `formatedTags` the slice as written so far. -/
def formatTagsLoop (lib : Stdlib) : List GoString → Nat → List GoString → List GoString
  | [], _, formatedTags => formatedTags
  | tag :: tags, i, formatedTags =>
    formatTagsLoop lib tags (i + 1)
      (formatedTags.set i (utf8 "tag:" ++ strings.ToLower lib.mapUnicodeLower tag))

/-- Go `buildPreAuthKeyRequestBody`. -/
def buildPreAuthKeyRequestBody (lib : Stdlib) (preAuthKeyConfig : PreAuthKeyConfig) : GoMap :=
  let requestBody := GoMap.make
  let requestBody :=
    if !preAuthKeyConfig.Expiration.IsZero then
      requestBody.set (utf8 "expiration")
        (Value.string (timestampToProtobufTimestamp lib preAuthKeyConfig.Expiration))
    else requestBody
  let requestBody :=
    if preAuthKeyConfig.Tags.length ≠ 0 then
      requestBody.set (utf8 "acl_tags")
        (Value.strings (formatTagsLoop lib preAuthKeyConfig.Tags 0
          (List.replicate preAuthKeyConfig.Tags.length [])))
    else requestBody
  let requestBody := requestBody.set (utf8 "user") (Value.string preAuthKeyConfig.User)
  let requestBody := requestBody.set (utf8 "expiration") (Value.time preAuthKeyConfig.Expiration)
  let requestBody := requestBody.set (utf8 "ephemeral") (Value.bool preAuthKeyConfig.Ephemeral)
  let requestBody := requestBody.set (utf8 "reusable") (Value.bool preAuthKeyConfig.Reusable)
  requestBody

/-- Go `checkPreAuthKeyCreationStatus`: the results `(status, err)` and the response after the
call. The body is read only for status code 500. -/
def checkPreAuthKeyCreationStatus (response : Response) :
    (PreAuthKeyStatus × Option Err) × Response :=
  if response.StatusCode = 200 then ((PreAuthKeyCreated, none), response)
  else if response.StatusCode = 500 then
    match ReadAll response.Body with
    | ((_, some err), rc) => ((PreAuthKeyError, some err), { response with Body := rc })
    | ((body, none), rc) =>
      if strings.Contains body (utf8 "Unauthorized") then
        ((PreAuthKeyError, some Err.ErrUnauthorized), { response with Body := rc })
      else if strings.Contains body (utf8 "User not found") then
        ((PreAuthKeyError, some Err.ErrUserNotFound), { response with Body := rc })
      else ((PreAuthKeyUnknown, none), { response with Body := rc })
  else ((PreAuthKeyUnknown, none), response)

/-- Go `retrievePreAuthKeyResponse`: the results `(preAuthKeyResponse, err)` and the response
after the call. -/
def retrievePreAuthKeyResponse (lib : Stdlib) (response : Response) :
    (PreAuthKeyResponse × Option Err) × Response :=
  match ReadAll response.Body with
  | ((_, some err), rc) => ((PreAuthKeyResponse.zero, some err), { response with Body := rc })
  | ((body, none), rc) =>
    match lib.unmarshalPreAuthKey body with
    | (_, some err) => ((PreAuthKeyResponse.zero, some err), { response with Body := rc })
    | (responseData, none) => ((responseData, none), { response with Body := rc })

/-- Go `Client.CreatePreAuthKey`: the results `(status, preAuthKey, err)` and the response as the
deferred `closeResponseBody(resp)` leaves it (`none` for a nil response). -/
def CreatePreAuthKey (lib : Stdlib) (c : Client) (preAuthKeyConfig : PreAuthKeyConfig) :
    (PreAuthKeyStatus × PreAuthKeyResponse × Option Err) × Option Response :=
  let preAuthKey := PreAuthKeyResponse.zero
  let requestBody := buildPreAuthKeyRequestBody lib preAuthKeyConfig
  match c.post (utf8 "/preauthkey") requestBody with
  | Transport.failed resp err =>
    ((PreAuthKeyError, PreAuthKeyResponse.zero, some err), closeResponseBody resp)
  | Transport.answered resp =>
    match checkPreAuthKeyCreationStatus resp with
    | ((_, some err), resp) =>
      ((PreAuthKeyError, PreAuthKeyResponse.zero, some err), closeResponseBody (some resp))
    | ((status, none), resp) =>
      match status with
      | PreAuthKeyCreated =>
        match retrievePreAuthKeyResponse lib resp with
        | ((preAuthKey, some err), resp) =>
          ((PreAuthKeyError, preAuthKey, some err), closeResponseBody (some resp))
        | ((preAuthKey, none), resp) =>
          ((status, preAuthKey, none), closeResponseBody (some resp))
      | _ => ((status, preAuthKey, none), closeResponseBody (some resp))

/-! ## `user.go` -/

/-- Go `checkUsersList`: the results `(users, err)` and the response after the call. The `err`
returned on a status other than 200 is the named result, which is never assigned. -/
def checkUsersList (lib : Stdlib) (response : Response) :
    (List UserConfig × Option Err) × Response :=
  if response.StatusCode = 200 then
    match ReadAll response.Body with
    | ((_, some err), rc) => (([], some err), { response with Body := rc })
    | ((respBody, none), rc) =>
      match lib.unmarshalUsers respBody with
      | (_, some err) => (([], some err), { response with Body := rc })
      | (users, none) => ((users, none), { response with Body := rc })
  else (([], none), response)

/-- Go `Client.ListUsers`: the results `(users, err)` and the response as the deferred
`closeResponseBody(resp)` leaves it. -/
def ListUsers (lib : Stdlib) (c : Client) : (List UserConfig × Option Err) × Option Response :=
  match c.get (utf8 "/user") with
  | Transport.failed resp err => (([], some err), closeResponseBody resp)
  | Transport.answered resp =>
    match checkUsersList lib resp with
    | (result, resp) => (result, closeResponseBody (some resp))

/-- Go `checkUserGetStatus`: the results `(status, user, err)` and the response after the
call. -/
def checkUserGetStatus (lib : Stdlib) (response : Response) :
    (UserStatus × UserConfig × Option Err) × Response :=
  match ReadAll response.Body with
  | ((_, some err), rc) => ((UserError, UserConfig.zero, some err), { response with Body := rc })
  | ((body, none), rc) =>
    if response.StatusCode = 200 then
      match lib.unmarshalUser body with
      | (_, some err) => ((UserError, UserConfig.zero, some err), { response with Body := rc })
      | (userCreationResponse, none) =>
        ((UserExists, userCreationResponse.User, none), { response with Body := rc })
    else if response.StatusCode = 500 then
      if strings.Contains body (utf8 "Unauthorized") then
        ((UserError, UserConfig.zero, some Err.ErrUnauthorized), { response with Body := rc })
      else if strings.Contains body (utf8 "User already exists") then
        ((UserExists, UserConfig.zero, none), { response with Body := rc })
      else ((UserError, UserConfig.zero, none), { response with Body := rc })
    else ((UserError, UserConfig.zero, none), { response with Body := rc })

/-- Go `Client.GetUser`: the results `(status, user, err)` and the response as the call leaves
it. There is no deferred `closeResponseBody` in this function. -/
def GetUser (lib : Stdlib) (c : Client) (name : GoString) :
    (UserStatus × UserConfig × Option Err) × Option Response :=
  match c.get (utf8 "/user/" ++ name) with
  | Transport.failed resp err => ((UserError, UserConfig.zero, some err), resp)
  | Transport.answered resp =>
    match checkUserGetStatus lib resp with
    | (result, resp) => (result, some resp)

/-- Go `checkUserCreationStatus`: the results and the response after the call. -/
def checkUserCreationStatus (lib : Stdlib) (response : Response) :
    (UserStatus × UserConfig × Option Err) × Response :=
  match ReadAll response.Body with
  | ((_, some err), rc) => ((UserError, UserConfig.zero, some err), { response with Body := rc })
  | ((body, none), rc) =>
    if response.StatusCode = 200 then
      match lib.unmarshalUser body with
      | (_, some err) => ((UserError, UserConfig.zero, some err), { response with Body := rc })
      | (userCreationResponse, none) =>
        ((UserCreated, userCreationResponse.User, none), { response with Body := rc })
    else if response.StatusCode = 500 then
      if strings.Contains body (utf8 "Unauthorized") then
        ((UserError, UserConfig.zero, some Err.ErrUnauthorized), { response with Body := rc })
      else if strings.Contains body (utf8 "User already exists") then
        ((UserExists, UserConfig.zero, none), { response with Body := rc })
      else ((UserError, UserConfig.zero, none), { response with Body := rc })
    else ((UserError, UserConfig.zero, none), { response with Body := rc })

/-- Go `Client.CreateUser`: the results `(status, user, err)` and the response as the deferred
`closeResponseBody(resp)` leaves it. The request body is `map[string]string{"name": name}`. -/
def CreateUser (lib : Stdlib) (c : Client) (name : GoString) :
    (UserStatus × UserConfig × Option Err) × Option Response :=
  let requestBody := GoMap.make.set (utf8 "name") (Value.string name)
  match c.post (utf8 "/user") requestBody with
  | Transport.failed resp err => ((UserError, UserConfig.zero, some err), closeResponseBody resp)
  | Transport.answered resp =>
    match checkUserCreationStatus lib resp with
    | (result, resp) => (result, closeResponseBody (some resp))

/-- Go `checkUserDeletionStatus`: the results `(status, err)` and the response after the call.
The body is read only for status code 500. -/
def checkUserDeletionStatus (response : Response) : (UserStatus × Option Err) × Response :=
  if response.StatusCode = 200 then ((UserDeleted, none), response)
  else if response.StatusCode = 500 then
    match ReadAll response.Body with
    | ((_, some err), rc) => ((UserError, some err), { response with Body := rc })
    | ((body, none), rc) =>
      if strings.Contains body (utf8 "Unauthorized") then
        ((UserError, some Err.ErrUnauthorized), { response with Body := rc })
      else if strings.Contains body (utf8 "User not found") then
        ((UserUnknown, some Err.ErrUserNotFound), { response with Body := rc })
      else ((UserError, none), { response with Body := rc })
  else ((UserError, none), response)

/-- Go `Client.DeleteUser`: the results `(status, err)` and the response as the deferred calls
leave it. `closeResponseBody(resp)` is deferred once before the error check (it runs on both
paths) and a second time after it. -/
def DeleteUser (c : Client) (name : GoString) : (UserStatus × Option Err) × Option Response :=
  match c.delete (utf8 "/user/" ++ name) with
  | Transport.failed resp err => ((UserError, some err), closeResponseBody resp)
  | Transport.answered resp =>
    match checkUserDeletionStatus resp with
    | (result, resp) => (result, closeResponseBody (closeResponseBody (some resp)))

/-! ## Sample inputs for the concrete instances -/

/-- A sample decoder: it rejects every body that does not start with the byte `opening` (123 for
the opening brace of a JSON object, 91 for the opening bracket of a JSON array), as
`json.Unmarshal` rejects the body "not json", and otherwise yields `v`. -/
def sampleUnmarshal {α : Type} (opening : Nat) (zero v : α) : GoString → α × Option Err
  | [] => (zero, some (Err.other 1))
  | first :: _ => if first = opening then (v, none) else (zero, some (Err.other 1))

/-- The user record the sample decoder yields. -/
def sampleUser : UserConfig := ⟨1, utf8 "bar", ⟨1700000000, 0⟩⟩

/-- The key record the sample decoder yields. -/
def sampleKey : PreAuthKeyResponse :=
  ⟨⟨utf8 "bar", utf8 "1", utf8 "abcdef", false, false, false, Time.zero, ⟨1700000000, 0⟩, []⟩⟩

/-- A standard library for the concrete instances. -/
def sampleLib : Stdlib where
  unmarshalUser := sampleUnmarshal 123 ⟨UserConfig.zero⟩ ⟨sampleUser⟩
  unmarshalUsers := sampleUnmarshal 91 [] [sampleUser]
  unmarshalPreAuthKey := sampleUnmarshal 123 PreAuthKeyResponse.zero sampleKey
  mapUnicodeLower := fun s => s
  timeFormat := fun _ layout => layout

/-- A client whose primitive answers every request with status code `c` and the readable
body `b`. -/
def answering (c : Int) (b : GoString) : Client where
  get := fun _ => Transport.answered (Response.readable c b)
  post := fun _ _ => Transport.answered (Response.readable c b)
  delete := fun _ => Transport.answered (Response.readable c b)

/-- A client whose primitive fails on every request: it returns the response `resp` (nil for
`none`) and the error `e`. -/
def failing (resp : Option Response) (e : Err) : Client where
  get := fun _ => Transport.failed resp e
  post := fun _ _ => Transport.failed resp e
  delete := fun _ => Transport.failed resp e

/-- A client whose primitive answers every request with the response `resp`. -/
def answeringWith (resp : Response) : Client where
  get := fun _ => Transport.answered resp
  post := fun _ _ => Transport.answered resp
  delete := fun _ => Transport.answered resp

/-- A body as the server sends it for the user "bar": a JSON object with the field "user". -/
def sampleUserBody : GoString :=
  utf8 "\x7b\"user\":\x7b\"id\":\"1\",\"name\":\"bar\",\"createdAt\":\"2023-11-14T22:13:20Z\"\x7d\x7d"

/-- A body as the server sends it for the list of users: a JSON array with the user "bar". -/
def sampleUsersBody : GoString :=
  utf8 "[\x7b\"id\":\"1\",\"name\":\"bar\",\"createdAt\":\"2023-11-14T22:13:20Z\"\x7d]"

/-- A body as the server sends it for a created key: a JSON object with the field
"preAuthKey". -/
def sampleKeyBody : GoString :=
  utf8 "\x7b\"preAuthKey\":\x7b\"user\":\"bar\",\"id\":\"1\",\"key\":\"abcdef\"\x7d\x7d"

/-! ## Lemmas on the string and list helpers -/

theorem strings.HasPrefix_iff (s p : GoString) : strings.HasPrefix s p = true ↔ p <+: s := by
  induction s generalizing p with
  | nil => cases p <;> simp [strings.HasPrefix]
  | cons c s ih =>
    cases p with
    | nil => simp [strings.HasPrefix]
    | cons d p =>
      simp only [strings.HasPrefix, Bool.and_eq_true, beq_iff_eq, ih, List.cons_prefix_cons]
      constructor
      · rintro ⟨h, hp⟩
        exact ⟨h.symm, hp⟩
      · rintro ⟨h, hp⟩
        exact ⟨h.symm, hp⟩

/-- The model of `strings.Contains` decides the infix relation on byte sequences. -/
theorem strings.Contains_iff (s substr : GoString) :
    strings.Contains s substr = true ↔ substr <:+: s := by
  induction s with
  | nil =>
    simp only [strings.Contains, strings.HasPrefix_iff]
    constructor
    · intro h
      exact h.isInfix
    · intro h
      have := List.eq_nil_of_infix_nil h
      simp [this]
  | cons c s ih =>
    simp only [strings.Contains, Bool.or_eq_true, strings.HasPrefix_iff, ih]
    rw [List.infix_cons_iff]

/-- On a string of ASCII bytes `strings.ToLower` is the bytewise ASCII mapping. -/
theorem strings.ToLower_ascii (mapUnicodeLower : GoString → GoString) (s : GoString)
    (h : s.all (fun c => decide (c < 128)) = true) :
    strings.ToLower mapUnicodeLower s = s.map asciiLower := by
  simp [strings.ToLower, h]

/-- The loop of `buildPreAuthKeyRequestBody`, started at index `done.length` on a slice whose
first `done.length` entries are `done` and that has one further entry per remaining tag,
overwrites those entries by the formatted tags, in order. -/
theorem formatTagsLoop_append (lib : Stdlib) (tags done rest : List GoString)
    (h : rest.length = tags.length) :
    formatTagsLoop lib tags done.length (done ++ rest) =
      done ++ tags.map (fun tag => utf8 "tag:" ++ strings.ToLower lib.mapUnicodeLower tag) := by
  induction tags generalizing done rest with
  | nil =>
    have hr : rest = [] := List.eq_nil_of_length_eq_zero h
    simp [formatTagsLoop, hr]
  | cons tag tags ih =>
    cases rest with
    | nil => simp at h
    | cons r rest =>
      have hlen : rest.length = tags.length := by simpa using h
      have hset : (done ++ r :: rest).set done.length
            (utf8 "tag:" ++ strings.ToLower lib.mapUnicodeLower tag) =
          (done ++ [utf8 "tag:" ++ strings.ToLower lib.mapUnicodeLower tag]) ++ rest := by
        simp
      have hidx : done.length + 1 =
          (done ++ [utf8 "tag:" ++ strings.ToLower lib.mapUnicodeLower tag]).length := by
        simp
      simp only [formatTagsLoop]
      rw [hset, hidx, ih _ rest hlen]
      simp

/-- The slice stored under "acl_tags": every tag, lower-cased and with "tag:" put in front. -/
theorem formatTagsLoop_eq_map (lib : Stdlib) (tags : List GoString) :
    formatTagsLoop lib tags 0 (List.replicate tags.length []) =
      tags.map (fun tag => utf8 "tag:" ++ strings.ToLower lib.mapUnicodeLower tag) := by
  have h := formatTagsLoop_append lib tags [] (List.replicate tags.length []) (by simp)
  simpa using h

/-- The binding of "acl_tags" in the request body of a pre-auth key. -/
theorem requestBody_at_acl_tags (lib : Stdlib) (cfg : PreAuthKeyConfig) :
    buildPreAuthKeyRequestBody lib cfg (utf8 "acl_tags") =
      if cfg.Tags = [] then none
      else some (Value.strings
        (cfg.Tags.map (fun tag => utf8 "tag:" ++ strings.ToLower lib.mapUnicodeLower tag))) := by
  have h1 : utf8 "acl_tags" ≠ utf8 "reusable" := by decide
  have h2 : utf8 "acl_tags" ≠ utf8 "ephemeral" := by decide
  have h3 : utf8 "acl_tags" ≠ utf8 "expiration" := by decide
  have h4 : utf8 "acl_tags" ≠ utf8 "user" := by decide
  by_cases ht : cfg.Tags = []
  · by_cases hz : cfg.Expiration.IsZero = true <;>
      simp [buildPreAuthKeyRequestBody, GoMap.set, GoMap.make, h1, h2, h3, h4, ht, hz]
  · by_cases hz : cfg.Expiration.IsZero = true <;>
      simp [buildPreAuthKeyRequestBody, GoMap.set, GoMap.make, h1, h2, h3, h4, ht, hz,
        formatTagsLoop_eq_map]

/-- When `checkUserGetStatus` returns `UserError` with a nil error. -/
theorem checkUserGetStatus_error_nil_iff (lib : Stdlib) (response : Response)
    (user : UserConfig) :
    (checkUserGetStatus lib response).1 = (UserError, user, none) ↔
      user = UserConfig.zero ∧ ∃ b,
        (ReadAll response.Body).1 = (b, none) ∧ response.StatusCode ≠ 200 ∧
        (response.StatusCode = 500 → strings.Contains b (utf8 "Unauthorized") = false ∧
          strings.Contains b (utf8 "User already exists") = false) := by
  unfold checkUserGetStatus
  rcases hread : ReadAll response.Body with ⟨⟨b, _ | e⟩, rc⟩
  · by_cases h200 : response.StatusCode = 200
    · rcases hd : lib.unmarshalUser b with ⟨decoded, _ | e⟩ <;> simp [h200, hd]
    · by_cases h500 : response.StatusCode = 500
      · by_cases hU : strings.Contains b (utf8 "Unauthorized") = true
        · simp [h500, hU]
        · by_cases hE : strings.Contains b (utf8 "User already exists") = true
          · simp [h500, hU, hE]
          · simp [h500, hU, hE, @eq_comm _ UserConfig.zero user]
      · simp [h200, h500, @eq_comm _ UserConfig.zero user]
  · simp

/-- When `checkUserCreationStatus` returns `UserError` with a nil error. -/
theorem checkUserCreationStatus_error_nil_iff (lib : Stdlib) (response : Response)
    (user : UserConfig) :
    (checkUserCreationStatus lib response).1 = (UserError, user, none) ↔
      user = UserConfig.zero ∧ ∃ b,
        (ReadAll response.Body).1 = (b, none) ∧ response.StatusCode ≠ 200 ∧
        (response.StatusCode = 500 → strings.Contains b (utf8 "Unauthorized") = false ∧
          strings.Contains b (utf8 "User already exists") = false) := by
  unfold checkUserCreationStatus
  rcases hread : ReadAll response.Body with ⟨⟨b, _ | e⟩, rc⟩
  · by_cases h200 : response.StatusCode = 200
    · rcases hd : lib.unmarshalUser b with ⟨decoded, _ | e⟩ <;> simp [h200, hd]
    · by_cases h500 : response.StatusCode = 500
      · by_cases hU : strings.Contains b (utf8 "Unauthorized") = true
        · simp [h500, hU]
        · by_cases hE : strings.Contains b (utf8 "User already exists") = true
          · simp [h500, hU, hE]
          · simp [h500, hU, hE, @eq_comm _ UserConfig.zero user]
      · simp [h200, h500, @eq_comm _ UserConfig.zero user]
  · simp

/-- When `checkUserDeletionStatus` returns `UserError` with a nil error. -/
theorem checkUserDeletionStatus_error_nil_iff (response : Response) :
    (checkUserDeletionStatus response).1 = (UserError, none) ↔
      response.StatusCode ≠ 200 ∧
      (response.StatusCode = 500 → ∃ b, (ReadAll response.Body).1 = (b, none) ∧
        strings.Contains b (utf8 "Unauthorized") = false ∧
        strings.Contains b (utf8 "User not found") = false) := by
  unfold checkUserDeletionStatus
  by_cases h200 : response.StatusCode = 200
  · simp [h200]
  · by_cases h500 : response.StatusCode = 500
    · rcases hread : ReadAll response.Body with ⟨⟨b, _ | e⟩, rc⟩
      · by_cases hU : strings.Contains b (utf8 "Unauthorized") = true
        · simp [h500, hU]
        · by_cases hN : strings.Contains b (utf8 "User not found") = true
          · simp [h500, hU, hN]
          · simp [h500, hU, hN]
      · simp [h500]
    · simp [h200, h500]

/-- The classifier `checkPreAuthKeyCreationStatus` never returns `PreAuthKeyError` with a nil
error. -/
theorem checkPreAuthKeyCreationStatus_error_not_nil (response : Response) :
    (checkPreAuthKeyCreationStatus response).1 ≠ (PreAuthKeyError, none) := by
  unfold checkPreAuthKeyCreationStatus
  by_cases h200 : response.StatusCode = 200
  · simp [h200]
  · by_cases h500 : response.StatusCode = 500
    · rcases hread : ReadAll response.Body with ⟨⟨b, _ | e⟩, rc⟩
      · by_cases hU : strings.Contains b (utf8 "Unauthorized") = true
        · simp [h500, hU]
        · by_cases hN : strings.Contains b (utf8 "User not found") = true
          · simp [h500, hU, hN]
          · simp [h500, hU, hN]
      · simp [h500]
    · simp [h200, h500]

/-! ## Classification of responses -/

/-- C1: for every response with status code `c` and readable body `b`,
`checkPreAuthKeyCreationStatus` returns `(PreAuthKeyCreated, nil)` when `c = 200`,
`(PreAuthKeyError, ErrUnauthorized)` when `c = 500` and `b` contains "Unauthorized",
`(PreAuthKeyError, ErrUserNotFound)` when `c = 500`, `b` does not contain "Unauthorized" and
contains "User not found", and `(PreAuthKeyUnknown, nil)` in every other case. -/
theorem preAuthKey_creation_classification (c : Int) (b : GoString) :
    (checkPreAuthKeyCreationStatus (Response.readable c b)).1 =
      if c = 200 then (PreAuthKeyCreated, none)
      else if c = 500 ∧ strings.Contains b (utf8 "Unauthorized") = true then
        (PreAuthKeyError, some Err.ErrUnauthorized)
      else if c = 500 ∧ strings.Contains b (utf8 "User not found") = true then
        (PreAuthKeyError, some Err.ErrUserNotFound)
      else (PreAuthKeyUnknown, none) := by
  unfold checkPreAuthKeyCreationStatus
  by_cases h200 : c = 200
  · simp [Response.readable, h200]
  · by_cases h500 : c = 500
    · by_cases hU : strings.Contains b (utf8 "Unauthorized") = true
      · simp [Response.readable, ReadAll, h500, hU]
      · by_cases hN : strings.Contains b (utf8 "User not found") = true
        · simp [Response.readable, ReadAll, h500, hU, hN]
        · simp [Response.readable, ReadAll, h500, hU, hN]
    · simp [Response.readable, h200, h500]

/-- C2 (counterexample): a response with status code 200 whose readable body "not json" does
not decode is none of the three named cases, yet `checkUserCreationStatus` does not return
`(UserError, zero, nil)` for it: it returns `UserError` with the error of the decoder. -/
theorem creation_status_undecodable_body :
    (sampleLib.unmarshalUser (utf8 "not json")).2 = some (Err.other 1) ∧
    (checkUserCreationStatus sampleLib (Response.readable 200 (utf8 "not json"))).1 =
      (UserError, UserConfig.zero, some (Err.other 1)) ∧
    (checkUserCreationStatus sampleLib (Response.readable 200 (utf8 "not json"))).1 ≠
      (UserError, UserConfig.zero, none) := by
  decide

/-- C2 (amended): for every response with status code `c` and readable body `b`,
`checkUserCreationStatus` returns `(UserCreated, u, nil)` when `c = 200` and `b` decodes to the
user record `u`, `(UserError, zero, e)` when `c = 200` and decoding `b` fails with the error `e`,
`(UserError, zero, ErrUnauthorized)` when `c = 500` and `b` contains "Unauthorized",
`(UserExists, zero, nil)` when `c = 500`, `b` does not contain "Unauthorized" and contains
"User already exists", and `(UserError, zero, nil)` for every other combination. -/
theorem user_creation_classification (lib : Stdlib) (c : Int) (b : GoString) :
    (checkUserCreationStatus lib (Response.readable c b)).1 =
      if c = 200 then
        match lib.unmarshalUser b with
        | (decoded, none) => (UserCreated, decoded.User, none)
        | (_, some e) => (UserError, UserConfig.zero, some e)
      else if c = 500 ∧ strings.Contains b (utf8 "Unauthorized") = true then
        (UserError, UserConfig.zero, some Err.ErrUnauthorized)
      else if c = 500 ∧ strings.Contains b (utf8 "User already exists") = true then
        (UserExists, UserConfig.zero, none)
      else (UserError, UserConfig.zero, none) := by
  unfold checkUserCreationStatus
  by_cases h200 : c = 200
  · simp only [Response.readable, ReadAll, h200]
    rcases hd : lib.unmarshalUser b with ⟨decoded, _ | e⟩ <;> simp [hd]
  · by_cases h500 : c = 500
    · by_cases hU : strings.Contains b (utf8 "Unauthorized") = true
      · simp [Response.readable, ReadAll, h500, hU]
      · by_cases hE : strings.Contains b (utf8 "User already exists") = true
        · simp [Response.readable, ReadAll, h500, hU, hE]
        · simp [Response.readable, ReadAll, h500, hU, hE]
    · simp [Response.readable, ReadAll, h200, h500]

/-- C3: for every response with status code `c` and readable body `b`,
`checkUserDeletionStatus` returns `(UserDeleted, nil)` when `c = 200`,
`(UserError, ErrUnauthorized)` when `c = 500` and `b` contains "Unauthorized",
`(UserUnknown, ErrUserNotFound)` when `c = 500`, `b` does not contain "Unauthorized" and
contains "User not found", and `(UserError, nil)` otherwise. In particular `DeleteUser`, answered
with such a "User not found" response, returns the status `UserUnknown` with `ErrUserNotFound`. -/
theorem user_deletion_classification (c : Int) (b : GoString) :
    (checkUserDeletionStatus (Response.readable c b)).1 =
      (if c = 200 then (UserDeleted, none)
      else if c = 500 ∧ strings.Contains b (utf8 "Unauthorized") = true then
        (UserError, some Err.ErrUnauthorized)
      else if c = 500 ∧ strings.Contains b (utf8 "User not found") = true then
        (UserUnknown, some Err.ErrUserNotFound)
      else (UserError, none)) ∧
    ∀ (client : Client) (name : GoString),
      client.delete (utf8 "/user/" ++ name) = Transport.answered (Response.readable 500 b) →
      strings.Contains b (utf8 "Unauthorized") = false →
      strings.Contains b (utf8 "User not found") = true →
      (DeleteUser client name).1 = (UserUnknown, some Err.ErrUserNotFound) := by
  constructor
  · unfold checkUserDeletionStatus
    by_cases h200 : c = 200
    · simp [Response.readable, h200]
    · by_cases h500 : c = 500
      · by_cases hU : strings.Contains b (utf8 "Unauthorized") = true
        · simp [Response.readable, ReadAll, h500, hU]
        · by_cases hN : strings.Contains b (utf8 "User not found") = true
          · simp [Response.readable, ReadAll, h500, hU, hN]
          · simp [Response.readable, ReadAll, h500, hU, hN]
      · simp [Response.readable, h200, h500]
  · intro client name hdelete hU hN
    simp [DeleteUser, hdelete, checkUserDeletionStatus, Response.readable, ReadAll, hU, hN]

/-- C3 (instance): deleting the user "baz" that the server does not know. -/
theorem delete_missing_user_baz :
    (DeleteUser (answering 500 (utf8 "User not found")) (utf8 "baz")).1 =
      (UserUnknown, some Err.ErrUserNotFound) :=
  (user_deletion_classification 500 (utf8 "User not found")).2
    (answering 500 (utf8 "User not found")) (utf8 "baz") rfl (by decide) (by decide)

/-- C4 (counterexample): a response with status code 200 whose readable body "not json" does
not decode is none of the three named cases, yet `checkUserGetStatus` does not return
`(UserError, zero, nil)` for it: it returns `UserError` with the error of the decoder. -/
theorem get_status_undecodable_body :
    (sampleLib.unmarshalUser (utf8 "not json")).2 = some (Err.other 1) ∧
    (checkUserGetStatus sampleLib (Response.readable 200 (utf8 "not json"))).1 =
      (UserError, UserConfig.zero, some (Err.other 1)) ∧
    (checkUserGetStatus sampleLib (Response.readable 200 (utf8 "not json"))).1 ≠
      (UserError, UserConfig.zero, none) := by
  decide

/-- C4 (amended): for every response with status code `c` and readable body `b`,
`checkUserGetStatus` returns `(UserExists, u, nil)` when `c = 200` and `b` decodes to the user
record `u`, `(UserError, zero, e)` when `c = 200` and decoding `b` fails with the error `e`,
`(UserError, zero, ErrUnauthorized)` when `c = 500` and `b` contains "Unauthorized",
`(UserExists, zero, nil)` when `c = 500`, `b` does not contain "Unauthorized" and contains
"User already exists", and `(UserError, zero, nil)` for every other combination, a 500 whose
body says "User not found" included; on every response whose status code is not 200 it returns
what `checkUserCreationStatus` returns. -/
theorem user_get_classification (lib : Stdlib) (c : Int) (b : GoString) :
    (checkUserGetStatus lib (Response.readable c b)).1 =
      (if c = 200 then
        match lib.unmarshalUser b with
        | (decoded, none) => (UserExists, decoded.User, none)
        | (_, some e) => (UserError, UserConfig.zero, some e)
      else if c = 500 ∧ strings.Contains b (utf8 "Unauthorized") = true then
        (UserError, UserConfig.zero, some Err.ErrUnauthorized)
      else if c = 500 ∧ strings.Contains b (utf8 "User already exists") = true then
        (UserExists, UserConfig.zero, none)
      else (UserError, UserConfig.zero, none)) ∧
    (checkUserGetStatus lib (Response.readable 500 (utf8 "User not found"))).1 =
      (UserError, UserConfig.zero, none) ∧
    ∀ response : Response, response.StatusCode ≠ 200 →
      checkUserGetStatus lib response = checkUserCreationStatus lib response := by
  refine ⟨?_, ?_, ?_⟩
  · unfold checkUserGetStatus
    by_cases h200 : c = 200
    · simp only [Response.readable, ReadAll, h200]
      rcases hd : lib.unmarshalUser b with ⟨decoded, _ | e⟩ <;> simp [hd]
    · by_cases h500 : c = 500
      · by_cases hU : strings.Contains b (utf8 "Unauthorized") = true
        · simp [Response.readable, ReadAll, h500, hU]
        · by_cases hE : strings.Contains b (utf8 "User already exists") = true
          · simp [Response.readable, ReadAll, h500, hU, hE]
          · simp [Response.readable, ReadAll, h500, hU, hE]
      · simp [Response.readable, ReadAll, h200, h500]
  · have hU : strings.Contains (utf8 "User not found") (utf8 "Unauthorized") = false := by decide
    have hE : strings.Contains (utf8 "User not found") (utf8 "User already exists") = false := by
      decide
    simp [checkUserGetStatus, Response.readable, ReadAll, hU, hE]
  · intro response h200
    simp [checkUserGetStatus, checkUserCreationStatus, h200]

/-- C4 (instance): on a 404 response the two classifiers return the same results and leave the
response in the same state. -/
theorem user_get_agrees_on_404 :
    checkUserGetStatus sampleLib (Response.readable 404 (utf8 "404 page not found")) =
      checkUserCreationStatus sampleLib (Response.readable 404 (utf8 "404 page not found")) :=
  (user_get_classification sampleLib 404 (utf8 "404 page not found")).2.2
    (Response.readable 404 (utf8 "404 page not found")) (by decide)

/-! ## The request body of a pre-auth key -/

/-- C5: for every configuration with a non-empty tag list, the "acl_tags" entry of the body built
by `buildPreAuthKeyRequestBody` is a list of the same length as the tag list whose `i`-th element
is "tag:" followed by the lower-cased `i`-th tag, also for a tag that already starts with "tag:";
for the tags "Hello", "World" it is exactly "tag:hello", "tag:world". -/
theorem acl_tags_entry_formats_each_tag (lib : Stdlib) (cfg : PreAuthKeyConfig)
    (h : cfg.Tags ≠ []) :
    (∃ l : List GoString,
      buildPreAuthKeyRequestBody lib cfg (utf8 "acl_tags") = some (Value.strings l) ∧
      l.length = cfg.Tags.length ∧
      ∀ (i : Nat) (hi : i < cfg.Tags.length),
        l[i]? = some (utf8 "tag:" ++ strings.ToLower lib.mapUnicodeLower (cfg.Tags.get ⟨i, hi⟩))) ∧
    (cfg.Tags = [utf8 "Hello", utf8 "World"] →
      buildPreAuthKeyRequestBody lib cfg (utf8 "acl_tags") =
        some (Value.strings [utf8 "tag:hello", utf8 "tag:world"])) ∧
    (cfg.Tags = [utf8 "tag:Prod"] →
      buildPreAuthKeyRequestBody lib cfg (utf8 "acl_tags") =
        some (Value.strings [utf8 "tag:tag:prod"])) := by
  rw [requestBody_at_acl_tags, if_neg h]
  refine ⟨⟨_, rfl, by simp, ?_⟩, ?_, ?_⟩
  · intro i hi
    simp [List.getElem?_map, List.getElem?_eq_getElem hi]
  · intro ht
    rw [ht]
    have h1 : strings.ToLower lib.mapUnicodeLower (utf8 "Hello") = utf8 "hello" := by
      rw [strings.ToLower_ascii _ _ (by decide)]
      decide
    have h2 : strings.ToLower lib.mapUnicodeLower (utf8 "World") = utf8 "world" := by
      rw [strings.ToLower_ascii _ _ (by decide)]
      decide
    simp only [List.map, h1, h2]
    decide
  · intro ht
    rw [ht]
    have h1 : strings.ToLower lib.mapUnicodeLower (utf8 "tag:Prod") = utf8 "tag:prod" := by
      rw [strings.ToLower_ascii _ _ (by decide)]
      decide
    simp only [List.map, h1]
    decide

/-- C5 (instance): the tags "Hello", "World" are sent as "tag:hello", "tag:world". -/
theorem acl_tags_hello_world :
    buildPreAuthKeyRequestBody sampleLib
        ⟨utf8 "bar", true, false, ⟨1700003600, 0⟩, [utf8 "Hello", utf8 "World"]⟩ (utf8 "acl_tags") =
      some (Value.strings [utf8 "tag:hello", utf8 "tag:world"]) :=
  (acl_tags_entry_formats_each_tag sampleLib
    ⟨utf8 "bar", true, false, ⟨1700003600, 0⟩, [utf8 "Hello", utf8 "World"]⟩
    (by decide)).2.1 rfl

/-- C6: for every configuration, the body built by `buildPreAuthKeyRequestBody` has the key
"acl_tags" if and only if the tag list of the configuration is not empty. -/
theorem acl_tags_key_iff_tags_nonempty (lib : Stdlib) (cfg : PreAuthKeyConfig) :
    (buildPreAuthKeyRequestBody lib cfg (utf8 "acl_tags")).isSome = true ↔ cfg.Tags ≠ [] := by
  rw [requestBody_at_acl_tags]
  by_cases ht : cfg.Tags = [] <;> simp [ht]

/-! ## The operations -/

/-- C7: whatever the transport returns and whatever the decoder does, if the status returned by
`CreatePreAuthKey` is not `PreAuthKeyCreated` then the returned `PreAuthKeyResponse` is the zero
value. -/
theorem non_created_status_has_zero_payload (lib : Stdlib) (c : Client) (cfg : PreAuthKeyConfig)
    (status : PreAuthKeyStatus) (preAuthKey : PreAuthKeyResponse) (err : Option Err)
    (hres : (CreatePreAuthKey lib c cfg).1 = (status, preAuthKey, err))
    (hstatus : status ≠ PreAuthKeyCreated) :
    preAuthKey = PreAuthKeyResponse.zero := by
  unfold CreatePreAuthKey at hres
  simp only at hres
  split at hres
  · simp only [Prod.mk.injEq] at hres
    exact hres.2.1.symm
  · split at hres
    · simp only [Prod.mk.injEq] at hres
      exact hres.2.1.symm
    · split at hres
      · unfold retrievePreAuthKeyResponse at hres
        split at hres
        · rename_i hret
          split at hret
          · simp only [Prod.mk.injEq] at hret hres
            rw [← hres.2.1, ← hret.1.1]
          · split at hret
            · simp only [Prod.mk.injEq] at hret hres
              rw [← hres.2.1, ← hret.1.1]
            · simp only [Prod.mk.injEq, reduceCtorEq, and_false, false_and] at hret
        · simp only [Prod.mk.injEq] at hres
          exact absurd hres.1.symm hstatus
      · simp only [Prod.mk.injEq] at hres
        exact hres.2.1.symm

/-- C7 (instance): a 200 response whose body does not decode gives a status other than
`PreAuthKeyCreated` and the zero-value response. -/
theorem undecodable_key_has_zero_payload :
    (CreatePreAuthKey sampleLib (answering 200 (utf8 "not json"))
        ⟨utf8 "bar", false, false, Time.zero, []⟩).1.1 ≠ PreAuthKeyCreated ∧
    (CreatePreAuthKey sampleLib (answering 200 (utf8 "not json"))
        ⟨utf8 "bar", false, false, Time.zero, []⟩).1.2.1 = PreAuthKeyResponse.zero :=
  ⟨by decide,
   non_created_status_has_zero_payload sampleLib (answering 200 (utf8 "not json"))
    ⟨utf8 "bar", false, false, Time.zero, []⟩ _ _ _ rfl (by decide)⟩

/-- C8: if the transport succeeds and the server answers the creation request with status code
500 and a readable body that contains "User not found" and not "Unauthorized", then
`CreatePreAuthKey` returns the status `PreAuthKeyError`, the zero-value response and the error
`ErrUserNotFound`. -/
theorem missing_user_gives_error_not_found (lib : Stdlib) (c : Client) (cfg : PreAuthKeyConfig)
    (b : GoString)
    (hpost : c.post (utf8 "/preauthkey") (buildPreAuthKeyRequestBody lib cfg) =
      Transport.answered (Response.readable 500 b))
    (hU : strings.Contains b (utf8 "Unauthorized") = false)
    (hN : strings.Contains b (utf8 "User not found") = true) :
    (CreatePreAuthKey lib c cfg).1 =
      (PreAuthKeyError, PreAuthKeyResponse.zero, some Err.ErrUserNotFound) := by
  simp [CreatePreAuthKey, hpost, checkPreAuthKeyCreationStatus, Response.readable, ReadAll, hU, hN]

/-- C8 (instance): a key for the user "baz" that the server does not know. -/
theorem key_for_missing_user_baz :
    (CreatePreAuthKey sampleLib (answering 500 (utf8 "User not found"))
        ⟨utf8 "baz", false, false, Time.zero, []⟩).1 =
      (PreAuthKeyError, PreAuthKeyResponse.zero, some Err.ErrUserNotFound) :=
  missing_user_gives_error_not_found sampleLib (answering 500 (utf8 "User not found"))
    ⟨utf8 "baz", false, false, Time.zero, []⟩ (utf8 "User not found") rfl (by decide) (by decide)

/-- C9: for each of `GetUser`, `CreateUser`, `DeleteUser` and `CreatePreAuthKey`, if the transport
succeeds and the server answers the request of the operation with status code 500 and a readable
body that contains "Unauthorized", the operation returns the Error status of its resource
together with `ErrUnauthorized`, whatever else the body contains. -/
theorem unauthorized_has_priority (lib : Stdlib) (c : Client) (name : GoString)
    (cfg : PreAuthKeyConfig) (b : GoString)
    (hU : strings.Contains b (utf8 "Unauthorized") = true) :
    (c.get (utf8 "/user/" ++ name) = Transport.answered (Response.readable 500 b) →
      (GetUser lib c name).1 = (UserError, UserConfig.zero, some Err.ErrUnauthorized)) ∧
    (c.post (utf8 "/user") (GoMap.make.set (utf8 "name") (Value.string name)) =
        Transport.answered (Response.readable 500 b) →
      (CreateUser lib c name).1 = (UserError, UserConfig.zero, some Err.ErrUnauthorized)) ∧
    (c.delete (utf8 "/user/" ++ name) = Transport.answered (Response.readable 500 b) →
      (DeleteUser c name).1 = (UserError, some Err.ErrUnauthorized)) ∧
    (c.post (utf8 "/preauthkey") (buildPreAuthKeyRequestBody lib cfg) =
        Transport.answered (Response.readable 500 b) →
      (CreatePreAuthKey lib c cfg).1 =
        (PreAuthKeyError, PreAuthKeyResponse.zero, some Err.ErrUnauthorized)) := by
  refine ⟨?_, ?_, ?_, ?_⟩
  · intro hget
    simp [GetUser, hget, checkUserGetStatus, Response.readable, ReadAll, hU]
  · intro hpost
    simp [CreateUser, hpost, checkUserCreationStatus, Response.readable, ReadAll, hU]
  · intro hdelete
    simp [DeleteUser, hdelete, checkUserDeletionStatus, Response.readable, ReadAll, hU]
  · intro hpost
    simp [CreatePreAuthKey, hpost, checkPreAuthKeyCreationStatus, Response.readable, ReadAll, hU]

/-- C9 (instance): a body that contains "Unauthorized" together with "User not found" and
"User already exists" is classified as unauthorized by all four operations. -/
theorem unauthorized_with_other_messages :
    (GetUser sampleLib
        (answering 500 (utf8 "User not found, User already exists, Unauthorized"))
        (utf8 "bar")).1 = (UserError, UserConfig.zero, some Err.ErrUnauthorized) ∧
    (CreateUser sampleLib
        (answering 500 (utf8 "User not found, User already exists, Unauthorized"))
        (utf8 "bar")).1 = (UserError, UserConfig.zero, some Err.ErrUnauthorized) ∧
    (DeleteUser
        (answering 500 (utf8 "User not found, User already exists, Unauthorized"))
        (utf8 "bar")).1 = (UserError, some Err.ErrUnauthorized) ∧
    (CreatePreAuthKey sampleLib
        (answering 500 (utf8 "User not found, User already exists, Unauthorized"))
        ⟨utf8 "bar", false, false, Time.zero, []⟩).1 =
      (PreAuthKeyError, PreAuthKeyResponse.zero, some Err.ErrUnauthorized) :=
  have h := unauthorized_has_priority sampleLib
    (answering 500 (utf8 "User not found, User already exists, Unauthorized")) (utf8 "bar")
    ⟨utf8 "bar", false, false, Time.zero, []⟩
    (utf8 "User not found, User already exists, Unauthorized") (by decide)
  ⟨h.1 rfl, h.2.1 rfl, h.2.2.1 rfl, h.2.2.2 rfl⟩

/-- C10 (counterexample): on a 404 response `GetUser`, `CreateUser` and `DeleteUser` return the
status `UserError` together with a nil error. -/
theorem user_error_with_nil_error :
    (GetUser sampleLib (answering 404 (utf8 "404 page not found")) (utf8 "bar")).1 =
      (UserError, UserConfig.zero, none) ∧
    (CreateUser sampleLib (answering 404 (utf8 "404 page not found")) (utf8 "bar")).1 =
      (UserError, UserConfig.zero, none) ∧
    (DeleteUser (answering 404 (utf8 "404 page not found")) (utf8 "bar")).1 =
      (UserError, none) := by
  decide

/-- C10 (amended): `CreatePreAuthKey` never returns `PreAuthKeyError` with a nil error. `GetUser`
and `CreateUser` return `UserError` with a nil error exactly when the transport succeeded, the
body was read without error, the status code is not 200 and, if it is 500, the body contains
neither "Unauthorized" nor "User already exists". `DeleteUser` returns `UserError` with a nil
error exactly when the transport succeeded, the status code is not 200 and, if it is 500, the
body was read without error and contains neither "Unauthorized" nor "User not found". In every
other case a returned Error status comes with a non-nil error. -/
theorem error_status_nil_error_iff_unclassified (lib : Stdlib) (c : Client) (name : GoString)
    (cfg : PreAuthKeyConfig) :
    (∀ preAuthKey err, (CreatePreAuthKey lib c cfg).1 = (PreAuthKeyError, preAuthKey, err) →
      err ≠ none) ∧
    (∀ user, (GetUser lib c name).1 = (UserError, user, none) ↔
      user = UserConfig.zero ∧ ∃ resp b,
        c.get (utf8 "/user/" ++ name) = Transport.answered resp ∧
        (ReadAll resp.Body).1 = (b, none) ∧ resp.StatusCode ≠ 200 ∧
        (resp.StatusCode = 500 → strings.Contains b (utf8 "Unauthorized") = false ∧
          strings.Contains b (utf8 "User already exists") = false)) ∧
    (∀ user, (CreateUser lib c name).1 = (UserError, user, none) ↔
      user = UserConfig.zero ∧ ∃ resp b,
        c.post (utf8 "/user") (GoMap.make.set (utf8 "name") (Value.string name)) =
          Transport.answered resp ∧
        (ReadAll resp.Body).1 = (b, none) ∧ resp.StatusCode ≠ 200 ∧
        (resp.StatusCode = 500 → strings.Contains b (utf8 "Unauthorized") = false ∧
          strings.Contains b (utf8 "User already exists") = false)) ∧
    ((DeleteUser c name).1 = (UserError, none) ↔
      ∃ resp, c.delete (utf8 "/user/" ++ name) = Transport.answered resp ∧
        resp.StatusCode ≠ 200 ∧
        (resp.StatusCode = 500 → ∃ b, (ReadAll resp.Body).1 = (b, none) ∧
          strings.Contains b (utf8 "Unauthorized") = false ∧
          strings.Contains b (utf8 "User not found") = false)) := by
  refine ⟨?_, ?_, ?_, ?_⟩
  · intro preAuthKey err hres
    unfold CreatePreAuthKey at hres
    simp only at hres
    rcases hpost : c.post (utf8 "/preauthkey") (buildPreAuthKeyRequestBody lib cfg)
      with ⟨resp, e⟩ | resp
    · rw [hpost] at hres
      simp only [Prod.mk.injEq] at hres
      simp [← hres.2.2]
    · rw [hpost] at hres
      simp only at hres
      have hne := checkPreAuthKeyCreationStatus_error_not_nil resp
      rcases hcheck : checkPreAuthKeyCreationStatus resp with ⟨⟨status, _ | e⟩, resp1⟩
      · rw [hcheck] at hres hne
        simp only at hres
        cases status with
        | PreAuthKeyCreated =>
          simp only at hres
          rcases hret : retrievePreAuthKeyResponse lib resp1 with ⟨⟨key, _ | e⟩, resp2⟩
          · rw [hret] at hres
            simp at hres
          · rw [hret] at hres
            simp only [Prod.mk.injEq] at hres
            simp [← hres.2.2]
        | PreAuthKeyError => exact absurd rfl hne
        | _ => simp at hres
      · rw [hcheck] at hres
        simp only [Prod.mk.injEq] at hres
        simp [← hres.2.2]
  · intro user
    unfold GetUser
    rcases hget : c.get (utf8 "/user/" ++ name) with ⟨resp, e⟩ | resp
    · simp
    · simp [checkUserGetStatus_error_nil_iff]
  · intro user
    unfold CreateUser
    rcases hpost : c.post (utf8 "/user") (GoMap.make.set (utf8 "name") (Value.string name))
      with ⟨resp, e⟩ | resp
    · simp [hpost]
    · simp [hpost, checkUserCreationStatus_error_nil_iff]
  · unfold DeleteUser
    rcases hdelete : c.delete (utf8 "/user/" ++ name) with ⟨resp, e⟩ | resp
    · simp
    · simp [checkUserDeletionStatus_error_nil_iff]

/-- C10 (instance): a 500 "Unauthorized" answer gives `PreAuthKeyError` with a non-nil error,
and the 404 answer for which `GetUser` returns `UserError` with a nil error is a response that
matches no classification rule. -/
theorem error_pairing_on_sample_responses :
    (some Err.ErrUnauthorized : Option Err) ≠ none ∧
    (UserConfig.zero = UserConfig.zero ∧ ∃ resp b,
      (answering 404 (utf8 "404 page not found")).get (utf8 "/user/" ++ utf8 "bar") =
        Transport.answered resp ∧
      (ReadAll resp.Body).1 = (b, none) ∧ resp.StatusCode ≠ 200 ∧
      (resp.StatusCode = 500 → strings.Contains b (utf8 "Unauthorized") = false ∧
        strings.Contains b (utf8 "User already exists") = false)) :=
  ⟨(error_status_nil_error_iff_unclassified sampleLib (answering 500 (utf8 "Unauthorized"))
      (utf8 "bar") ⟨utf8 "bar", false, false, Time.zero, []⟩).1
      PreAuthKeyResponse.zero (some Err.ErrUnauthorized) (by decide),
   ((error_status_nil_error_iff_unclassified sampleLib (answering 404 (utf8 "404 page not found"))
      (utf8 "bar") ⟨utf8 "bar", false, false, Time.zero, []⟩).2.1 UserConfig.zero).mp
      (by decide)⟩

/-- C11: for each of `GetUser`, `CreateUser`, `DeleteUser` and `CreatePreAuthKey`, if the HTTP
primitive returns the error `e`, the operation returns the Error status of its resource, the
zero-value payload (where it has one) and the error `e`, whatever response came with the error;
the response is not read: it is left as it was by `GetUser` and as `closeResponseBody` leaves it
by the other three. -/
theorem transport_error_is_returned (lib : Stdlib) (c : Client) (name : GoString)
    (cfg : PreAuthKeyConfig) (resp : Option Response) (e : Err) :
    (c.get (utf8 "/user/" ++ name) = Transport.failed resp e →
      GetUser lib c name = ((UserError, UserConfig.zero, some e), resp)) ∧
    (c.post (utf8 "/user") (GoMap.make.set (utf8 "name") (Value.string name)) =
        Transport.failed resp e →
      CreateUser lib c name = ((UserError, UserConfig.zero, some e), closeResponseBody resp)) ∧
    (c.delete (utf8 "/user/" ++ name) = Transport.failed resp e →
      DeleteUser c name = ((UserError, some e), closeResponseBody resp)) ∧
    (c.post (utf8 "/preauthkey") (buildPreAuthKeyRequestBody lib cfg) =
        Transport.failed resp e →
      CreatePreAuthKey lib c cfg =
        ((PreAuthKeyError, PreAuthKeyResponse.zero, some e), closeResponseBody resp)) := by
  refine ⟨?_, ?_, ?_, ?_⟩
  · intro hget
    simp [GetUser, hget]
  · intro hpost
    simp [CreateUser, hpost]
  · intro hdelete
    simp [DeleteUser, hdelete]
  · intro hpost
    simp [CreatePreAuthKey, hpost]

/-- C11 (instance): a transport failure with the error `other 7` that comes with a 500
"Unauthorized" response is returned as `other 7` by all four operations, not as
`ErrUnauthorized`. -/
theorem transport_error_hides_response :
    (GetUser sampleLib (failing (some (Response.readable 500 (utf8 "Unauthorized")))
        (Err.other 7)) (utf8 "bar")).1 = (UserError, UserConfig.zero, some (Err.other 7)) ∧
    (CreateUser sampleLib (failing (some (Response.readable 500 (utf8 "Unauthorized")))
        (Err.other 7)) (utf8 "bar")).1 = (UserError, UserConfig.zero, some (Err.other 7)) ∧
    (DeleteUser (failing (some (Response.readable 500 (utf8 "Unauthorized")))
        (Err.other 7)) (utf8 "bar")).1 = (UserError, some (Err.other 7)) ∧
    (CreatePreAuthKey sampleLib (failing (some (Response.readable 500 (utf8 "Unauthorized")))
        (Err.other 7)) ⟨utf8 "bar", false, false, Time.zero, []⟩).1 =
      (PreAuthKeyError, PreAuthKeyResponse.zero, some (Err.other 7)) :=
  have h := transport_error_is_returned sampleLib
    (failing (some (Response.readable 500 (utf8 "Unauthorized"))) (Err.other 7)) (utf8 "bar")
    ⟨utf8 "bar", false, false, Time.zero, []⟩
    (some (Response.readable 500 (utf8 "Unauthorized"))) (Err.other 7)
  ⟨congrArg Prod.fst (h.1 rfl), congrArg Prod.fst (h.2.1 rfl), congrArg Prod.fst (h.2.2.1 rfl),
    congrArg Prod.fst (h.2.2.2 rfl)⟩

/-- C12 (counterexample): a 404 response matches no classification rule, yet the three user
classifiers return the status `UserError` for it, not `UserUnknown`. -/
theorem user_classifiers_on_404 :
    (checkUserGetStatus sampleLib (Response.readable 404 (utf8 "404 page not found"))).1 =
      (UserError, UserConfig.zero, none) ∧
    (checkUserCreationStatus sampleLib (Response.readable 404 (utf8 "404 page not found"))).1 =
      (UserError, UserConfig.zero, none) ∧
    (checkUserDeletionStatus (Response.readable 404 (utf8 "404 page not found"))).1 =
      (UserError, none) ∧
    (checkUserGetStatus sampleLib (Response.readable 404 (utf8 "404 page not found"))).1.1 ≠
      UserUnknown ∧
    (checkUserCreationStatus sampleLib (Response.readable 404 (utf8 "404 page not found"))).1.1 ≠
      UserUnknown ∧
    (checkUserDeletionStatus (Response.readable 404 (utf8 "404 page not found"))).1.1 ≠
      UserUnknown := by
  decide

/-- C12 (amended): for every response with a readable body `b` and a status code `c` other than
200 that matches no rule of the classifier (`c` is not 500, or `c` is 500 and `b` contains none
of the two substrings the classifier looks for), `checkPreAuthKeyCreationStatus` returns
`PreAuthKeyUnknown` with a nil error, and `checkUserGetStatus`, `checkUserCreationStatus` and
`checkUserDeletionStatus` return `UserError` with a nil error (and the zero-value user where
they return one). -/
theorem unclassified_response_results (lib : Stdlib) (c : Int) (b : GoString) (hc : c ≠ 200) :
    ((c = 500 → strings.Contains b (utf8 "Unauthorized") = false ∧
        strings.Contains b (utf8 "User not found") = false) →
      (checkPreAuthKeyCreationStatus (Response.readable c b)).1 = (PreAuthKeyUnknown, none) ∧
      (checkUserDeletionStatus (Response.readable c b)).1 = (UserError, none)) ∧
    ((c = 500 → strings.Contains b (utf8 "Unauthorized") = false ∧
        strings.Contains b (utf8 "User already exists") = false) →
      (checkUserGetStatus lib (Response.readable c b)).1 = (UserError, UserConfig.zero, none) ∧
      (checkUserCreationStatus lib (Response.readable c b)).1 =
        (UserError, UserConfig.zero, none)) := by
  constructor
  · intro h
    by_cases h500 : c = 500
    · obtain ⟨hU, hN⟩ := h h500
      simp [checkPreAuthKeyCreationStatus, checkUserDeletionStatus, Response.readable, ReadAll,
        h500, hU, hN]
    · simp [checkPreAuthKeyCreationStatus, checkUserDeletionStatus, Response.readable, hc, h500]
  · intro h
    by_cases h500 : c = 500
    · obtain ⟨hU, hE⟩ := h h500
      simp [checkUserGetStatus, checkUserCreationStatus, Response.readable, ReadAll, h500, hU, hE]
    · simp [checkUserGetStatus, checkUserCreationStatus, Response.readable, ReadAll, hc, h500]

/-- C12 (instance): a 500 response whose body names none of the known messages. -/
theorem unclassified_500_results :
    ((checkPreAuthKeyCreationStatus (Response.readable 500 (utf8 "database is locked"))).1 =
        (PreAuthKeyUnknown, none) ∧
      (checkUserDeletionStatus (Response.readable 500 (utf8 "database is locked"))).1 =
        (UserError, none)) ∧
    ((checkUserGetStatus sampleLib (Response.readable 500 (utf8 "database is locked"))).1 =
        (UserError, UserConfig.zero, none) ∧
      (checkUserCreationStatus sampleLib (Response.readable 500 (utf8 "database is locked"))).1 =
        (UserError, UserConfig.zero, none)) :=
  have h := unclassified_response_results sampleLib 500 (utf8 "database is locked") (by decide)
  ⟨h.1 (fun _ => by decide), h.2 (fun _ => by decide)⟩

/-! ## `ListUsers` -/

/-- C13: when the transport succeeds and the response has status code 200 and a readable body
that decodes to the sequence `users`, `ListUsers` returns `(users, nil)`; when the transport
succeeds and the status code is not 200, `ListUsers` returns the empty sequence and a nil error,
whatever the body is. -/
theorem list_users_results (lib : Stdlib) (c : Client) :
    (∀ (b : GoString) (users : List UserConfig),
      c.get (utf8 "/user") = Transport.answered (Response.readable 200 b) →
      lib.unmarshalUsers b = (users, none) →
      (ListUsers lib c).1 = (users, none)) ∧
    (∀ resp : Response,
      c.get (utf8 "/user") = Transport.answered resp → resp.StatusCode ≠ 200 →
      (ListUsers lib c).1 = ([], none)) := by
  constructor
  · intro b users hget hdecode
    simp [ListUsers, hget, checkUsersList, Response.readable, ReadAll, hdecode]
  · intro resp hget hstatus
    simp [ListUsers, hget, checkUsersList, hstatus]

/-- C13 (instance): a 200 answer with a JSON array gives the decoded users, and a 500
"Unauthorized" answer gives the empty sequence with a nil error. -/
theorem list_users_on_sample_responses :
    (ListUsers sampleLib (answering 200 sampleUsersBody)).1 = ([sampleUser], none) ∧
    (ListUsers sampleLib (answering 500 (utf8 "Unauthorized"))).1 = ([], none) :=
  ⟨(list_users_results sampleLib (answering 200 sampleUsersBody)).1
      sampleUsersBody [sampleUser] rfl (by decide),
   (list_users_results sampleLib (answering 500 (utf8 "Unauthorized"))).2
      (Response.readable 500 (utf8 "Unauthorized")) rfl (by decide)⟩

/-! ## The request body of a pre-auth key: all keys -/

/-- C14: for every configuration, the body built by `buildPreAuthKeyRequestBody` binds "user" to
the user, "ephemeral" and "reusable" to the two flags and "expiration" to the raw expiration
time; its keys are exactly these four, and "acl_tags" when the tag list is not empty; the value
under "expiration" is never a string, so the formatted expiration never is in the body. -/
theorem request_body_keys_and_values (lib : Stdlib) (cfg : PreAuthKeyConfig) :
    buildPreAuthKeyRequestBody lib cfg (utf8 "user") = some (Value.string cfg.User) ∧
    buildPreAuthKeyRequestBody lib cfg (utf8 "ephemeral") = some (Value.bool cfg.Ephemeral) ∧
    buildPreAuthKeyRequestBody lib cfg (utf8 "reusable") = some (Value.bool cfg.Reusable) ∧
    buildPreAuthKeyRequestBody lib cfg (utf8 "expiration") = some (Value.time cfg.Expiration) ∧
    (∀ k : GoString, (buildPreAuthKeyRequestBody lib cfg k).isSome = true ↔
      k = utf8 "user" ∨ k = utf8 "ephemeral" ∨ k = utf8 "reusable" ∨ k = utf8 "expiration" ∨
        (k = utf8 "acl_tags" ∧ cfg.Tags ≠ [])) ∧
    (∀ formatted : GoString,
      buildPreAuthKeyRequestBody lib cfg (utf8 "expiration") ≠ some (Value.string formatted)) := by
  have hue : utf8 "user" ≠ utf8 "ephemeral" := by decide
  have hur : utf8 "user" ≠ utf8 "reusable" := by decide
  have hux : utf8 "user" ≠ utf8 "expiration" := by decide
  have her : utf8 "ephemeral" ≠ utf8 "reusable" := by decide
  have hxe : utf8 "expiration" ≠ utf8 "ephemeral" := by decide
  have hxr : utf8 "expiration" ≠ utf8 "reusable" := by decide
  have har : utf8 "acl_tags" ≠ utf8 "reusable" := by decide
  have hae : utf8 "acl_tags" ≠ utf8 "ephemeral" := by decide
  have hax : utf8 "acl_tags" ≠ utf8 "expiration" := by decide
  have hau : utf8 "acl_tags" ≠ utf8 "user" := by decide
  refine ⟨?_, ?_, ?_, ?_, ?_, ?_⟩
  · simp [buildPreAuthKeyRequestBody, GoMap.set, hue, hur, hux]
  · simp [buildPreAuthKeyRequestBody, GoMap.set, her]
  · simp [buildPreAuthKeyRequestBody, GoMap.set]
  · simp [buildPreAuthKeyRequestBody, GoMap.set, hxe, hxr]
  · intro k
    by_cases k1 : k = utf8 "reusable"
    · simp [buildPreAuthKeyRequestBody, GoMap.set, k1]
    · by_cases k2 : k = utf8 "ephemeral"
      · simp [buildPreAuthKeyRequestBody, GoMap.set, k2, her]
      · by_cases k3 : k = utf8 "expiration"
        · simp [buildPreAuthKeyRequestBody, GoMap.set, k3, hxe, hxr]
        · by_cases k4 : k = utf8 "user"
          · simp [buildPreAuthKeyRequestBody, GoMap.set, k4, hue, hur, hux]
          · by_cases k5 : k = utf8 "acl_tags"
            · by_cases ht : cfg.Tags = [] <;>
                by_cases hz : cfg.Expiration.IsZero = true <;>
                simp [buildPreAuthKeyRequestBody, GoMap.set, GoMap.make, k5, har, hae, hax, hau,
                  ht, hz]
            · by_cases ht : cfg.Tags = [] <;>
                by_cases hz : cfg.Expiration.IsZero = true <;>
                simp [buildPreAuthKeyRequestBody, GoMap.set, GoMap.make, k1, k2, k3, k4, k5,
                  ht, hz]
  · intro formatted
    simp [buildPreAuthKeyRequestBody, GoMap.set, hxe, hxr]

/-! ## `CreatePreAuthKey`: decoding, status and error -/

/-- The results `checkPreAuthKeyCreationStatus` can return. -/
theorem checkPreAuthKeyCreationStatus_cases (response : Response) :
    (checkPreAuthKeyCreationStatus response).1 = (PreAuthKeyCreated, none) ∨
    (checkPreAuthKeyCreationStatus response).1 = (PreAuthKeyUnknown, none) ∨
    ∃ e, (checkPreAuthKeyCreationStatus response).1 = (PreAuthKeyError, some e) := by
  unfold checkPreAuthKeyCreationStatus
  by_cases h200 : response.StatusCode = 200
  · simp [h200]
  · by_cases h500 : response.StatusCode = 500
    · rcases hread : ReadAll response.Body with ⟨⟨b, _ | e⟩, rc⟩
      · by_cases hU : strings.Contains b (utf8 "Unauthorized") = true
        · simp [h500, hU]
        · by_cases hN : strings.Contains b (utf8 "User not found") = true
          · simp [h500, hU, hN]
          · simp [h500, hU, hN]
      · simp [h500]
    · simp [h200, h500]

/-- C15: for `CreatePreAuthKey` with a successful transport and a response with status code 200:
if the body is read and decodes to `r`, the result is `(PreAuthKeyCreated, r, nil)`; if reading
the body fails with the error `e`, or the body is read and decoding it fails with `e`, the result
is `(PreAuthKeyError, zero, e)`. -/
theorem created_key_is_decoded (lib : Stdlib) (c : Client) (cfg : PreAuthKeyConfig)
    (resp : Response)
    (hpost : c.post (utf8 "/preauthkey") (buildPreAuthKeyRequestBody lib cfg) =
      Transport.answered resp)
    (h200 : resp.StatusCode = 200) :
    (∀ b r, (ReadAll resp.Body).1 = (b, none) → lib.unmarshalPreAuthKey b = (r, none) →
      (CreatePreAuthKey lib c cfg).1 = (PreAuthKeyCreated, r, none)) ∧
    (∀ b e, (ReadAll resp.Body).1 = (b, some e) →
      (CreatePreAuthKey lib c cfg).1 = (PreAuthKeyError, PreAuthKeyResponse.zero, some e)) ∧
    (∀ b partialData e, (ReadAll resp.Body).1 = (b, none) →
      lib.unmarshalPreAuthKey b = (partialData, some e) →
      (CreatePreAuthKey lib c cfg).1 = (PreAuthKeyError, PreAuthKeyResponse.zero, some e)) := by
  rcases hread : ReadAll resp.Body with ⟨⟨body, readErr⟩, rc⟩
  refine ⟨?_, ?_, ?_⟩
  · intro b r hb hdecode
    simp only [Prod.mk.injEq] at hb
    obtain ⟨rfl, rfl⟩ := hb
    simp [CreatePreAuthKey, hpost, checkPreAuthKeyCreationStatus, h200,
      retrievePreAuthKeyResponse, hread, hdecode]
  · intro b e hb
    simp only [Prod.mk.injEq] at hb
    obtain ⟨rfl, rfl⟩ := hb
    simp [CreatePreAuthKey, hpost, checkPreAuthKeyCreationStatus, h200,
      retrievePreAuthKeyResponse, hread]
  · intro b partialData e hb hdecode
    simp only [Prod.mk.injEq] at hb
    obtain ⟨rfl, rfl⟩ := hb
    simp [CreatePreAuthKey, hpost, checkPreAuthKeyCreationStatus, h200,
      retrievePreAuthKeyResponse, hread, hdecode]

/-- C15 (instance): a 200 answer with the JSON of a key gives the decoded key; a 200 answer whose
body is "not json" gives `PreAuthKeyError` with the error of the decoder; a 200 answer whose
body cannot be read gives `PreAuthKeyError` with the read error. -/
theorem created_key_on_sample_responses :
    (CreatePreAuthKey sampleLib (answering 200 sampleKeyBody)
        ⟨utf8 "bar", false, false, Time.zero, []⟩).1 = (PreAuthKeyCreated, sampleKey, none) ∧
    (CreatePreAuthKey sampleLib (answering 200 (utf8 "not json"))
        ⟨utf8 "bar", false, false, Time.zero, []⟩).1 =
      (PreAuthKeyError, PreAuthKeyResponse.zero, some (Err.other 1)) ∧
    (CreatePreAuthKey sampleLib (answeringWith ⟨200, ⟨utf8 "not", some (Err.other 9), false⟩⟩)
        ⟨utf8 "bar", false, false, Time.zero, []⟩).1 =
      (PreAuthKeyError, PreAuthKeyResponse.zero, some (Err.other 9)) :=
  ⟨(created_key_is_decoded sampleLib (answering 200 sampleKeyBody)
      ⟨utf8 "bar", false, false, Time.zero, []⟩ (Response.readable 200 sampleKeyBody) rfl rfl).1
      sampleKeyBody sampleKey (by decide) (by decide),
   (created_key_is_decoded sampleLib (answering 200 (utf8 "not json"))
      ⟨utf8 "bar", false, false, Time.zero, []⟩ (Response.readable 200 (utf8 "not json"))
      rfl rfl).2.2 (utf8 "not json") PreAuthKeyResponse.zero (Err.other 1) (by decide) (by decide),
   (created_key_is_decoded sampleLib (answeringWith ⟨200, ⟨utf8 "not", some (Err.other 9), false⟩⟩)
      ⟨utf8 "bar", false, false, Time.zero, []⟩ ⟨200, ⟨utf8 "not", some (Err.other 9), false⟩⟩
      rfl rfl).2.1 (utf8 "not") (Err.other 9) (by decide)⟩

/-- C17: whatever the transport returns and whatever the decoder does, `CreatePreAuthKey`
returns a non-nil error if and only if it returns the status `PreAuthKeyError`, and the status it
returns is `PreAuthKeyCreated`, `PreAuthKeyUnknown` or `PreAuthKeyError`. -/
theorem key_error_iff_error_status (lib : Stdlib) (c : Client) (cfg : PreAuthKeyConfig) :
    ((CreatePreAuthKey lib c cfg).1.2.2 ≠ none ↔
      (CreatePreAuthKey lib c cfg).1.1 = PreAuthKeyError) ∧
    ((CreatePreAuthKey lib c cfg).1.1 = PreAuthKeyCreated ∨
      (CreatePreAuthKey lib c cfg).1.1 = PreAuthKeyUnknown ∨
      (CreatePreAuthKey lib c cfg).1.1 = PreAuthKeyError) := by
  unfold CreatePreAuthKey
  simp only
  rcases hpost : c.post (utf8 "/preauthkey") (buildPreAuthKeyRequestBody lib cfg)
    with ⟨resp, e⟩ | resp
  · simp
  · simp only
    have hcases := checkPreAuthKeyCreationStatus_cases resp
    rcases hcheck : checkPreAuthKeyCreationStatus resp with ⟨⟨status, err⟩, resp1⟩
    rw [hcheck] at hcases
    rcases hcases with h | h | ⟨e, h⟩
    · simp only [Prod.mk.injEq] at h
      obtain ⟨rfl, rfl⟩ := h
      simp only
      rcases hret : retrievePreAuthKeyResponse lib resp1 with ⟨⟨key, _ | e⟩, resp2⟩ <;> simp
    · simp only [Prod.mk.injEq] at h
      obtain ⟨rfl, rfl⟩ := h
      simp
    · simp only [Prod.mk.injEq] at h
      obtain ⟨rfl, rfl⟩ := h
      simp

/-! ## Release of the response body -/

/-- A response that `closeResponseBody` returns has a closed body. -/
theorem closeResponseBody_closed (x : Option Response) (r : Response)
    (h : closeResponseBody x = some r) : r.Body.closed = true := by
  cases x with
  | none => simp [closeResponseBody] at h
  | some y =>
    simp only [closeResponseBody, Option.some.injEq] at h
    rw [← h]

/-- The response that `CreatePreAuthKey` leaves has gone through `closeResponseBody`. -/
theorem CreatePreAuthKey_final_response (lib : Stdlib) (c : Client) (cfg : PreAuthKeyConfig) :
    ∃ x, (CreatePreAuthKey lib c cfg).2 = closeResponseBody x := by
  unfold CreatePreAuthKey
  simp only
  repeat' (first | exact ⟨_, rfl⟩ | exact ⟨some _, rfl⟩ | split)

/-- `ListUsers`, `CreateUser`, `DeleteUser` and `CreatePreAuthKey` release the body of the
response on every path: the response they leave, if there is one, has a closed body. -/
theorem siblings_release_the_body (lib : Stdlib) (c : Client) (name : GoString)
    (cfg : PreAuthKeyConfig) (r : Response) :
    ((ListUsers lib c).2 = some r → r.Body.closed = true) ∧
    ((CreateUser lib c name).2 = some r → r.Body.closed = true) ∧
    ((DeleteUser c name).2 = some r → r.Body.closed = true) ∧
    ((CreatePreAuthKey lib c cfg).2 = some r → r.Body.closed = true) := by
  refine ⟨?_, ?_, ?_, ?_⟩
  · unfold ListUsers
    rcases hget : c.get (utf8 "/user") with ⟨resp, e⟩ | resp
    · exact closeResponseBody_closed _ _
    · simp only
      rcases hcheck : checkUsersList lib resp with ⟨result, resp1⟩
      exact closeResponseBody_closed _ _
  · unfold CreateUser
    rcases hpost : c.post (utf8 "/user") (GoMap.make.set (utf8 "name") (Value.string name))
      with ⟨resp, e⟩ | resp
    · simp only [hpost]
      exact closeResponseBody_closed _ _
    · rcases hcheck : checkUserCreationStatus lib resp with ⟨result, resp1⟩
      simp only [hpost, hcheck]
      exact closeResponseBody_closed _ _
  · unfold DeleteUser
    rcases hdelete : c.delete (utf8 "/user/" ++ name) with ⟨resp, e⟩ | resp
    · exact closeResponseBody_closed _ _
    · simp only
      rcases hcheck : checkUserDeletionStatus resp with ⟨result, resp1⟩
      exact closeResponseBody_closed _ _
  · intro h
    obtain ⟨x, hx⟩ := CreatePreAuthKey_final_response lib c cfg
    rw [hx] at h
    exact closeResponseBody_closed _ _ h

/-- On every answered request `GetUser` leaves the body of the response as open or closed as
it received it: it never closes the body. -/
theorem GetUser_keeps_closed_flag (lib : Stdlib) (c : Client) (name : GoString)
    (resp : Response) (hget : c.get (utf8 "/user/" ++ name) = Transport.answered resp) :
    ∃ r, (GetUser lib c name).2 = some r ∧ r.Body.closed = resp.Body.closed := by
  have hread : (ReadAll resp.Body).2.closed = resp.Body.closed := by
    unfold ReadAll
    by_cases hc : resp.Body.closed = true <;> simp [hc]
  unfold GetUser
  rw [hget]
  simp only
  unfold checkUserGetStatus
  rcases hr : ReadAll resp.Body with ⟨⟨b, _ | e⟩, rc⟩
  · rw [hr] at hread
    simp only at hread
    simp only
    repeat' (first | exact ⟨_, rfl, hread⟩ | split)
  · rw [hr] at hread
    exact ⟨_, rfl, hread⟩

/-- C16 (evaluation): `GetUser` returns with the body of the response read and not closed, on
the success path (200 with the JSON of the user) and on an error path (500 "Unauthorized");
`CreateUser`, given the same answers, leaves the body closed. -/
theorem get_user_does_not_release :
    GetUser sampleLib (answering 200 sampleUserBody) (utf8 "bar") =
      ((UserExists, sampleUser, none), some ⟨200, ⟨[], none, false⟩⟩) ∧
    GetUser sampleLib (answering 500 (utf8 "Unauthorized")) (utf8 "bar") =
      ((UserError, UserConfig.zero, some Err.ErrUnauthorized), some ⟨500, ⟨[], none, false⟩⟩) ∧
    CreateUser sampleLib (answering 200 sampleUserBody) (utf8 "bar") =
      ((UserCreated, sampleUser, none), some ⟨200, ⟨[], none, true⟩⟩) ∧
    CreateUser sampleLib (answering 500 (utf8 "Unauthorized")) (utf8 "bar") =
      ((UserError, UserConfig.zero, some Err.ErrUnauthorized), some ⟨500, ⟨[], none, true⟩⟩) := by
  decide

end Headscale
